import Mathlib

/-!
Shallow embedding of the cyber_recorder Recorder
(src/cyber/tools/cyber_recorder/recorder.cc).

The Recorder is modelled as a pure state machine. External collaborators
(RecordWriter, node/reader factory, topology channel manager) are modelled
by an oracle structure giving the result of each external call, and every
operation returns, besides its C++ return value and the updated Recorder
state, the list of externally visible events it performed, in order.
-/

namespace CyberRecorder

/-- Externally visible effects of the Recorder, in the order the C++ code
performs them.  Each constructor that corresponds to a fallible external
call carries the outcome the environment returned for that call. -/
inductive Event where
  | logWarn (s : String) : Event
  | logError (s : String) : Event
  | logDebug (s : String) : Event
  | openWriter (ok : Bool) : Event
  | createNode (ok : Bool) : Event
  | writeChannel (name mtype desc : String) (ok : Bool) : Event
  | createReader (name : String) (ok : Bool) : Event
  | writeMessage (name payload : String) (t : Nat) (ok : Bool) : Event
  | showProgress : Event
  | addChangeListener (connected : Bool) : Event
  | removeChangeListener : Event
  | closeWriter : Event
  | resetNode : Event
  deriving DecidableEq

/-- RoleAttributes: protobuf message with optional string fields.  A field
is `none` when `has_...()` is false in the C++ code. -/
structure RoleAttributes where
  channel_name : Option String
  message_type : Option String
  proto_desc : Option String
  deriving DecidableEq

/-- A protobuf optional string field is usable when it is present and
non-empty; mirrors the repeated pattern
`!attr.has_f() || attr.f().empty()` in Recorder::FindNewChannel. -/
def hasNonEmpty : Option String → Bool
  | none => false
  | some s => !s.isEmpty

/-- Role type tag of a ChangeMsg; only ROLE_WRITER events are actionable. -/
inductive RoleType where
  | roleWriter : RoleType
  | roleOther : RoleType
  deriving DecidableEq

/-- ChangeMsg delivered by the topology change listener. -/
structure ChangeMsg where
  role_type : RoleType
  role_attr : RoleAttributes
  deriving DecidableEq

/-- Recorder state: constructor parameters plus the mutable bookkeeping
(`channel_reader_map_` is abstracted to its key set, since the claims only
depend on which channel names hold a reader). -/
structure Recorder where
  output_ : String
  all_channels_ : Bool
  channel_vec_ : List String
  reader_pending_queue_size : Nat
  channel_reader_map_ : List String
  is_started_ : Bool
  is_stopping_ : Bool
  deriving DecidableEq

/-- Recorder::Recorder — fresh session: empty reader map, not started. -/
def Recorder.mk0 (output : String) (all_channels : Bool)
    (channel_vec : List String) (queue_size : Nat) : Recorder :=
  { output_ := output
    all_channels_ := all_channels
    channel_vec_ := channel_vec
    reader_pending_queue_size := queue_size
    channel_reader_map_ := []
    is_started_ := false
    is_stopping_ := false }

/-- Oracle for the external calls made while handling one channel
notification: the outcome of `writer_->WriteChannel`, whether
`shared_from_this()` succeeds (no `std::bad_weak_ptr`), and whether
`node_->CreateReader` returns a non-null reader. -/
structure ExtEnv where
  writeChannelOk : Bool
  sharedFromThisOk : Bool
  createReaderOk : Bool
  deriving DecidableEq

/-- Recorder::InitReaderImpl — builds the delivery callback and asks the
node to create a reader; on success the reader is stored in
`channel_reader_map_`.  Returns the C++ bool, the new state and the
events.  The `message_type` parameter is unused in the C++ body as well. -/
def InitReaderImpl (r : Recorder) (e : ExtEnv)
    (channel_name : String) (message_type : String) :
    Bool × Recorder × List Event :=
  if e.sharedFromThisOk then
    if e.createReaderOk then
      (true,
       { r with channel_reader_map_ := channel_name :: r.channel_reader_map_ },
       [Event.createReader channel_name true])
    else
      (false, r,
       [Event.createReader channel_name false,
        Event.logError "Create reader failed."])
  else
    (false, r, [Event.logError "bad weak ptr"])

/-- Recorder::FindNewChannel — validity checks on the three descriptor
fields, the all-channels / allow-list policy, the reader-map
deduplication, then WriteChannel (failure only logged) and
InitReaderImpl (its bool result is discarded, as in the C++ code). -/
def FindNewChannel (r : Recorder) (e : ExtEnv) (a : RoleAttributes) :
    Recorder × List Event :=
  if !hasNonEmpty a.channel_name then
    (r, [Event.logWarn "change message not has a channel name or has an empty one."])
  else if !hasNonEmpty a.message_type then
    (r, [Event.logWarn "Change message not has a message type or has an empty one."])
  else if !hasNonEmpty a.proto_desc then
    (r, [Event.logWarn "Change message not has a proto desc or has an empty one."])
  else
    let name := a.channel_name.getD ""
    let mtype := a.message_type.getD ""
    let desc := a.proto_desc.getD ""
    if !r.all_channels_ && !(r.channel_vec_.contains name) then
      (r, [Event.logDebug "New channel was found, but not in record list."])
    else if r.channel_reader_map_.contains name then
      (r, [])
    else
      let wc : List Event :=
        if e.writeChannelOk then
          [Event.writeChannel name mtype desc true]
        else
          [Event.writeChannel name mtype desc false,
           Event.logError "write channel fail"]
      let res := InitReaderImpl r e name mtype
      (res.2.1, wc ++ res.2.2)

/-- Recorder::TopologyCallback — ignores every change message whose role
type is not ROLE_WRITER, otherwise forwards to FindNewChannel. -/
def TopologyCallback (r : Recorder) (e : ExtEnv) (m : ChangeMsg) :
    Recorder × List Event :=
  match m.role_type with
  | RoleType.roleWriter => FindNewChannel r e m.role_attr
  | RoleType.roleOther =>
      (r, [Event.logDebug "Change message role type is not ROLE_WRITER."])

/-- Recorder::ReaderCallback — lifecycle-state gate, null-payload gate,
then `writer_->WriteMessage` with the capture timestamp; a failed write
is only logged.  `message = none` models a null RawMessage pointer;
`writeOk` is the outcome the writer returns; `now` is
`Time::Now().ToNanosecond()`. -/
def ReaderCallback (r : Recorder) (message : Option String)
    (channel_name : String) (writeOk : Bool) (now : Nat) : List Event :=
  if !r.is_started_ || r.is_stopping_ then
    [Event.logError "record procedure is not started or stopping."]
  else
    match message with
    | none => [Event.logError "message is nullptr"]
    | some payload =>
        if writeOk then
          [Event.writeMessage channel_name payload now true]
        else
          [Event.writeMessage channel_name payload now false,
           Event.logError "write data fail"]

/-- The delivery lambda installed by Recorder::InitReaderImpl: lock the
weak pointer to the session (`none` models a dead session), and if it is
alive run ReaderCallback and then, unconditionally,
`writer_->ShowProgress()`. -/
def deliveryCallback (alive : Option Recorder) (channel_name : String)
    (raw_message : Option String) (writeOk : Bool) (now : Nat) :
    List Event :=
  match alive with
  | none => []
  | some r =>
      ReaderCallback r raw_message channel_name writeOk now
        ++ [Event.showProgress]

/-- One step of Recorder::InitReadersImpl applied to the writer snapshot:
each historical RoleAttributes goes through FindNewChannel with its own
external-call outcomes. -/
def processSnapshot (r : Recorder) :
    List (RoleAttributes × ExtEnv) → Recorder × List Event
  | [] => (r, [])
  | (a, e) :: rest =>
      let step := FindNewChannel r e a
      let further := processSnapshot step.1 rest
      (further.1, step.2 ++ further.2)

/-- Recorder::InitReadersImpl — first enumerates the historical writers
and feeds each to FindNewChannel, then installs the change listener and
fails if the returned connection is not connected. -/
def InitReadersImpl (r : Recorder) (snapshot : List (RoleAttributes × ExtEnv))
    (connected : Bool) : Bool × Recorder × List Event :=
  let snap := processSnapshot r snapshot
  if connected then
    (true, snap.1, snap.2 ++ [Event.addChangeListener true])
  else
    (false, snap.1,
     snap.2 ++ [Event.addChangeListener false,
                Event.logError "change connection is not connected"])

/-- Oracle for a whole Start call: writer open outcome, node creation
outcome, the topology writer snapshot with per-channel oracles, and
whether the change connection comes back connected. -/
structure StartEnv where
  openOk : Bool
  nodeOk : Bool
  snapshot : List (RoleAttributes × ExtEnv)
  connected : Bool

/-- Recorder::Start — open the writer, create the node, run
InitReadersImpl; only if all succeed set `is_started_`. -/
def Start (r : Recorder) (env : StartEnv) : Bool × Recorder × List Event :=
  if !env.openOk then
    (false, r, [Event.openWriter false, Event.logError "Datafile open file error."])
  else if !env.nodeOk then
    (false, r,
     [Event.openWriter true, Event.createNode false,
      Event.logError "create node failed"])
  else
    let res := InitReadersImpl r env.snapshot env.connected
    if res.1 then
      (true, { res.2.1 with is_started_ := true },
       Event.openWriter true :: Event.createNode true :: res.2.2)
    else
      (false, res.2.1,
       Event.openWriter true :: Event.createNode true
         :: res.2.2 ++ [Event.logError "init readers error"])

/-- Recorder::FreeReadersImpl — removes the change listener; in the C++
code this function cannot fail. -/
def FreeReadersImpl : Bool × List Event :=
  (true, [Event.removeChangeListener])

/-- Recorder::Stop — no-op returning false unless started and not already
stopping; otherwise sets `is_stopping_`, removes the change listener,
closes the writer and resets the node.  The reader map is left untouched,
exactly as in the C++ code. -/
def Stop (r : Recorder) : Bool × Recorder × List Event :=
  if !r.is_started_ || r.is_stopping_ then
    (false, r, [])
  else
    let r1 := { r with is_stopping_ := true }
    if !FreeReadersImpl.1 then
      (false, r1, FreeReadersImpl.2)
    else
      (true, r1, FreeReadersImpl.2 ++ [Event.closeWriter, Event.resetNode])

/-- Recorder::~Recorder — the destructor just calls Stop and drops its
result. -/
def destruct (r : Recorder) : Recorder × List Event :=
  ((Stop r).2.1, (Stop r).2.2)

/-- A descriptor is usable when all three fields are present and
non-empty (spec section 3 invariant; the first three checks of
FindNewChannel). -/
def validAttr (a : RoleAttributes) : Bool :=
  hasNonEmpty a.channel_name && hasNonEmpty a.message_type
    && hasNonEmpty a.proto_desc

/-- One notification observed during a session: a snapshot entry fed
directly to FindNewChannel, or a live change message fed to
TopologyCallback. -/
inductive Notice where
  | snapshotEntry (a : RoleAttributes) : Notice
  | changeEvent (m : ChangeMsg) : Notice
  deriving DecidableEq

/-- Dispatch of one notification. -/
def stepNotice (r : Recorder) (e : ExtEnv) : Notice → Recorder × List Event
  | Notice.snapshotEntry a => FindNewChannel r e a
  | Notice.changeEvent m => TopologyCallback r e m

/-- A whole sequence of notifications, each with its own external-call
outcomes, processed in order. -/
def runNotices (r : Recorder) :
    List (Notice × ExtEnv) → Recorder × List Event
  | [] => (r, [])
  | (n, e) :: rest =>
      let step := stepNotice r e n
      let further := runNotices step.1 rest
      (further.1, step.2 ++ further.2)

/-- Recognizes the event of a successful reader creation for `name`. -/
def isCreatedFor (name : String) : Event → Bool
  | Event.createReader n ok => ok && n == name
  | _ => false

/-- Number of successful reader creations for `name` in a trace. -/
def countCreated (evs : List Event) (name : String) : Nat :=
  (evs.filter (isCreatedFor name)).length

/-- Remaining creation budget for `name`: 1 while no reader exists, 0 once
`channel_reader_map_` holds the name. -/
def creditN (r : Recorder) (name : String) : Nat :=
  if r.channel_reader_map_.contains name then 0 else 1

/-- Recognizer: any append invocation on the writer. -/
def isWriteMessageEv : Event → Bool
  | Event.writeMessage _ _ _ _ => true
  | _ => false

/-- Recognizer: any reader-creation attempt. -/
def isCreateReaderEv : Event → Bool
  | Event.createReader _ _ => true
  | _ => false

/-- Recognizer: any schema-registration invocation on the writer. -/
def isWriteChannelEv : Event → Bool
  | Event.writeChannel _ _ _ _ => true
  | _ => false

/-- Recognizer: installation of the topology change listener. -/
def isAddChangeListenerEv : Event → Bool
  | Event.addChangeListener _ => true
  | _ => false

/-- Recognizer: the progress-reporting call on the writer. -/
def isShowProgressEv : Event → Bool
  | Event.showProgress => true
  | _ => false

/-- Number of progress-report invocations in a trace. -/
def countShowProgress (evs : List Event) : Nat :=
  (evs.filter isShowProgressEv).length

/-- Sample session that was never started. -/
def idleRec : Recorder := Recorder.mk0 "out.record" true [] 50

/-- Sample started session holding one reader, for concrete evaluation. -/
def startedRec : Recorder :=
  { output_ := "out.record"
    all_channels_ := true
    channel_vec_ := []
    reader_pending_queue_size := 50
    channel_reader_map_ := ["/chatter"]
    is_started_ := true
    is_stopping_ := false }

/-- Sample valid descriptor. -/
def chatterAttr : RoleAttributes :=
  { channel_name := some "/chatter"
    message_type := some "RawMessage"
    proto_desc := some "schema-bytes" }

/-- Sample oracle where every external call succeeds. -/
def okEnv : ExtEnv :=
  { writeChannelOk := true, sharedFromThisOk := true, createReaderOk := true }

/-- Sample oracle where only the schema registration fails. -/
def wcFailEnv : ExtEnv :=
  { writeChannelOk := false, sharedFromThisOk := true, createReaderOk := true }

/-- Sample session restricted to the allow list a, b. -/
def allowRec : Recorder := Recorder.mk0 "out.record" false ["a", "b"] 50

/-- Sample valid descriptor named c, outside the allow list of allowRec. -/
def cAttr : RoleAttributes :=
  { channel_name := some "c"
    message_type := some "RawMessage"
    proto_desc := some "schema-bytes" }

/-- Sample Start oracle whose change connection comes back disconnected. -/
def disconnectedEnv : StartEnv :=
  { openOk := true
    nodeOk := true
    snapshot := [(chatterAttr, okEnv)]
    connected := false }

end CyberRecorder

namespace CyberRecorder

/-- C1: while the session is not started or is stopping, ReaderCallback
only logs and discards the payload, and the delivery callback performs no
WriteMessage invocation. -/
theorem noWritesOutsideStarted (r : Recorder) (message : Option String)
    (channel_name : String) (writeOk : Bool) (now : Nat)
    (h : r.is_started_ = false ∨ r.is_stopping_ = true) :
    ReaderCallback r message channel_name writeOk now
      = [Event.logError "record procedure is not started or stopping."]
    ∧ (deliveryCallback (some r) channel_name message writeOk now).any
        isWriteMessageEv = false := by
  have hcond : (!r.is_started_ || r.is_stopping_) = true := by
    rcases h with h | h <;> simp [h]
  constructor
  · simp [ReaderCallback, hcond]
  · simp [deliveryCallback, ReaderCallback, hcond, isWriteMessageEv]

/-- Witness for C1 at a concrete never-started session. -/
theorem noWritesOutsideStarted_witness :
    (idleRec.is_started_ = false ∨ idleRec.is_stopping_ = true)
    ∧ (ReaderCallback idleRec (some "payload") "/chatter" true 7
        = [Event.logError "record procedure is not started or stopping."]
      ∧ (deliveryCallback (some idleRec) "/chatter" (some "payload") true 7).any
          isWriteMessageEv = false) :=
  ⟨Or.inl rfl,
   noWritesOutsideStarted idleRec (some "payload") "/chatter" true 7 (Or.inl rfl)⟩

/-- C5: a descriptor with a missing or empty name, message type or proto
descriptor is rejected before any writer registration or reader creation,
and the session state is unchanged, regardless of policy. -/
theorem invalidDescriptorRejected (r : Recorder) (e : ExtEnv)
    (a : RoleAttributes) (hv : validAttr a = false) :
    (FindNewChannel r e a).1 = r
    ∧ (FindNewChannel r e a).2.any isWriteChannelEv = false
    ∧ (FindNewChannel r e a).2.any isCreateReaderEv = false := by
  cases h1 : hasNonEmpty a.channel_name with
  | false =>
      simp [FindNewChannel, h1, isWriteChannelEv, isCreateReaderEv]
  | true =>
  cases h2 : hasNonEmpty a.message_type with
  | false =>
      simp [FindNewChannel, h1, h2, isWriteChannelEv, isCreateReaderEv]
  | true =>
  cases h3 : hasNonEmpty a.proto_desc with
  | false =>
      simp [FindNewChannel, h1, h2, h3, isWriteChannelEv, isCreateReaderEv]
  | true =>
      simp [validAttr, h1, h2, h3] at hv

/-- Witness for C5 at a concrete descriptor with an empty proto
descriptor. -/
theorem invalidDescriptorRejected_witness :
    (validAttr { channel_name := some "/chatter",
                 message_type := some "RawMessage",
                 proto_desc := some "" } = false)
    ∧ ((FindNewChannel idleRec okEnv
          { channel_name := some "/chatter",
            message_type := some "RawMessage",
            proto_desc := some "" }).1 = idleRec
      ∧ (FindNewChannel idleRec okEnv
          { channel_name := some "/chatter",
            message_type := some "RawMessage",
            proto_desc := some "" }).2.any isWriteChannelEv = false
      ∧ (FindNewChannel idleRec okEnv
          { channel_name := some "/chatter",
            message_type := some "RawMessage",
            proto_desc := some "" }).2.any isCreateReaderEv = false) :=
  ⟨rfl, invalidDescriptorRejected idleRec okEnv
    { channel_name := some "/chatter", message_type := some "RawMessage",
      proto_desc := some "" } rfl⟩

/-- C6: Stop on a session that is not started, or already stopping, is a
no-op returning false; Stop on a started session returns true and
performs exactly one teardown trace, and a second Stop on the resulting
state is again a failing no-op with no further teardown. -/
theorem idempotentStop (r : Recorder) :
    (r.is_started_ = false ∨ r.is_stopping_ = true → Stop r = (false, r, []))
    ∧ (r.is_started_ = true → r.is_stopping_ = false →
        (Stop r).1 = true
        ∧ (Stop r).2.2
            = [Event.removeChangeListener, Event.closeWriter, Event.resetNode]
        ∧ Stop (Stop r).2.1 = (false, (Stop r).2.1, [])) := by
  constructor
  · intro h
    have hcond : (!r.is_started_ || r.is_stopping_) = true := by
      rcases h with h | h <;> simp [h]
    simp [Stop, hcond]
  · intro h1 h2
    simp [Stop, FreeReadersImpl, h1, h2]

/-- Witness for C6 at a never-started session and at a started one. -/
theorem idempotentStop_witness :
    Stop idleRec = (false, idleRec, [])
    ∧ ((Stop startedRec).1 = true
      ∧ (Stop startedRec).2.2
          = [Event.removeChangeListener, Event.closeWriter, Event.resetNode]
      ∧ Stop (Stop startedRec).2.1 = (false, (Stop startedRec).2.1, [])) :=
  ⟨(idempotentStop idleRec).1 (Or.inl rfl),
   (idempotentStop startedRec).2 rfl rfl⟩

/-- C3 (teardown gap): Stop on a started session with one active reader
closes the writer while the reader map still holds that reader; the trace
is only listener removal, writer close and node reset, with no
subscription teardown step before the close. -/
theorem stopTeardownGap :
    (Stop startedRec).1 = true
    ∧ (Stop startedRec).2.1.channel_reader_map_ = ["/chatter"]
    ∧ (Stop startedRec).2.2
        = [Event.removeChangeListener, Event.closeWriter, Event.resetNode] :=
  ⟨rfl, rfl, rfl⟩

/-- C9 counterexample: a delivery on a live but never-started session is
discarded by the lifecycle check (no WriteMessage), yet ShowProgress is
still invoked. -/
theorem showProgressDespiteDiscard :
    deliveryCallback (some idleRec) "/chatter" (some "payload") true 3
      = [Event.logError "record procedure is not started or stopping.",
         Event.showProgress]
    ∧ (deliveryCallback (some idleRec) "/chatter" (some "payload") true 3).any
        isWriteMessageEv = false :=
  ⟨rfl, rfl⟩

/-- ReaderCallback itself never reports progress; the progress call comes
from the delivery lambda around it. -/
theorem countShowProgress_readerCallback (r : Recorder)
    (message : Option String) (channel_name : String) (writeOk : Bool)
    (now : Nat) :
    countShowProgress (ReaderCallback r message channel_name writeOk now)
      = 0 := by
  unfold ReaderCallback countShowProgress
  repeat' split
  all_goals simp [isShowProgressEv]

/-- Progress counting distributes over trace concatenation. -/
theorem countShowProgress_append (l1 l2 : List Event) :
    countShowProgress (l1 ++ l2)
      = countShowProgress l1 + countShowProgress l2 := by
  simp [countShowProgress, List.filter_append]

/-- C9 amended: on every delivery-callback invocation in which the weak
back-reference still resolves, ShowProgress is invoked exactly once,
after ReaderCallback and regardless of the lifecycle state, the null
check or the append outcome; when the session no longer exists nothing
at all happens. -/
theorem showProgressUnconditional (r : Recorder) (channel_name : String)
    (message : Option String) (writeOk : Bool) (now : Nat) :
    countShowProgress
        (deliveryCallback (some r) channel_name message writeOk now) = 1
    ∧ deliveryCallback none channel_name message writeOk now = [] := by
  constructor
  · unfold deliveryCallback
    rw [countShowProgress_append, countShowProgress_readerCallback]
    rfl
  · rfl

/-- C10: destroying the Recorder performs exactly the trace of Stop:
the full teardown sequence when the session is started and not yet
stopping, and no step at all otherwise. -/
theorem destructorStops (r : Recorder) :
    (destruct r).2 = (Stop r).2.2
    ∧ (r.is_started_ = true → r.is_stopping_ = false →
        (destruct r).2
          = [Event.removeChangeListener, Event.closeWriter, Event.resetNode])
    ∧ (r.is_started_ = false ∨ r.is_stopping_ = true →
        (destruct r).2 = []) := by
  refine ⟨rfl, ?_, ?_⟩
  · intro h1 h2
    simp [destruct, Stop, FreeReadersImpl, h1, h2]
  · intro h
    have hcond : (!r.is_started_ || r.is_stopping_) = true := by
      rcases h with h | h <;> simp [h]
    simp [destruct, Stop, hcond]

/-- Successful-creation counting distributes over concatenation. -/
theorem countCreated_append (l1 l2 : List Event) (name : String) :
    countCreated (l1 ++ l2) name
      = countCreated l1 name + countCreated l2 name := by
  simp [countCreated, List.filter_append]

/-- InitReaderImpl performs at most one successful creation, and only by
spending the creation budget of its own channel name. -/
theorem initReaderImpl_credit (r : Recorder) (e : ExtEnv)
    (n mt name : String)
    (hna : r.channel_reader_map_.contains n = false) :
    countCreated (InitReaderImpl r e n mt).2.2 name
      + creditN (InitReaderImpl r e n mt).2.1 name ≤ creditN r name := by
  have hna2 : n ∉ r.channel_reader_map_ := by simpa using hna
  unfold InitReaderImpl
  cases hs : e.sharedFromThisOk with
  | false => simp [hs, countCreated, isCreatedFor, creditN]
  | true =>
  cases hc : e.createReaderOk with
  | false => simp [hs, hc, countCreated, isCreatedFor, creditN]
  | true =>
  by_cases hn : n = name
  · subst hn
    simp [hs, hc, countCreated, isCreatedFor, creditN, hna2]
  · have hn4 : ¬(name = n) := fun hh => hn hh.symm
    simp [hs, hc, countCreated, isCreatedFor, creditN, hn, hn4]

/-- FindNewChannel performs at most one successful creation per call, and
only by spending the creation budget of the notified channel name. -/
theorem findNewChannel_credit (r : Recorder) (e : ExtEnv)
    (a : RoleAttributes) (name : String) :
    countCreated (FindNewChannel r e a).2 name
      + creditN (FindNewChannel r e a).1 name ≤ creditN r name := by
  simp only [FindNewChannel]
  split
  · simp [countCreated, isCreatedFor]
  split
  · simp [countCreated, isCreatedFor]
  split
  · simp [countCreated, isCreatedFor]
  split
  · simp [countCreated, isCreatedFor]
  split
  · simp [countCreated]
  · rename_i hdup
    have hna : r.channel_reader_map_.contains (a.channel_name.getD "")
        = false := by
      simpa using hdup
    have hIR := initReaderImpl_credit r e (a.channel_name.getD "")
      (a.message_type.getD "") name hna
    simp only [countCreated_append]
    cases hw : e.writeChannelOk with
    | true =>
        simp [hw, countCreated, isCreatedFor] at hIR ⊢
        omega
    | false =>
        simp [hw, countCreated, isCreatedFor] at hIR ⊢
        omega

/-- One notification, of either kind, spends at most the creation budget
of the channel it names. -/
theorem stepNotice_credit (r : Recorder) (e : ExtEnv) (n : Notice)
    (name : String) :
    countCreated (stepNotice r e n).2 name
      + creditN (stepNotice r e n).1 name ≤ creditN r name := by
  cases n with
  | snapshotEntry a => exact findNewChannel_credit r e a name
  | changeEvent m =>
      cases m with
      | mk rt attr =>
          cases rt with
          | roleWriter => exact findNewChannel_credit r e attr name
          | roleOther =>
              simp [stepNotice, TopologyCallback, countCreated, isCreatedFor]

/-- Over any notification sequence, successful creations for a name plus
the remaining budget never exceed the initial budget. -/
theorem runNotices_credit (notices : List (Notice × ExtEnv)) (r : Recorder)
    (name : String) :
    countCreated (runNotices r notices).2 name
      + creditN (runNotices r notices).1 name ≤ creditN r name := by
  induction notices generalizing r with
  | nil => simp [runNotices, countCreated]
  | cons p rest ih =>
      cases p with
      | mk n e =>
          have h1 := stepNotice_credit r e n name
          have h2 := ih (stepNotice r e n).1
          simp [runNotices, countCreated_append]
          omega

/-- C2: within one session lifetime (starting from construction), any
sequence of snapshot entries and topology change events produces at most
one successful reader creation per channel name. -/
theorem atMostOneSubscription (output : String) (all_channels : Bool)
    (channel_vec : List String) (queue_size : Nat)
    (notices : List (Notice × ExtEnv)) (name : String) :
    countCreated
      (runNotices (Recorder.mk0 output all_channels channel_vec queue_size)
        notices).2 name ≤ 1 := by
  have h := runNotices_credit notices
    (Recorder.mk0 output all_channels channel_vec queue_size) name
  have hc : creditN (Recorder.mk0 output all_channels channel_vec queue_size)
      name = 1 := by
    simp [creditN, Recorder.mk0]
  omega

/-- C4: with capture-all off, a descriptor whose name is outside the
allow list never produces a reader and leaves the state unchanged; with
capture-all on, every valid descriptor passes the policy check: it either
proceeds straight to the schema registration or is absorbed by the
deduplication check, never rejected by policy. -/
theorem policyCorrectness (r : Recorder) (e : ExtEnv) (a : RoleAttributes)
    (name mtype desc : String)
    (ha : a.channel_name = some name) (hm : a.message_type = some mtype)
    (hd : a.proto_desc = some desc) :
    (r.all_channels_ = false → r.channel_vec_.contains name = false →
        (FindNewChannel r e a).1 = r
        ∧ (FindNewChannel r e a).2.any isCreateReaderEv = false)
    ∧ (validAttr a = true → r.all_channels_ = true →
        (r.channel_reader_map_.contains name = false →
            (FindNewChannel r e a).2.head?
              = some (Event.writeChannel name mtype desc e.writeChannelOk))
        ∧ (r.channel_reader_map_.contains name = true →
            FindNewChannel r e a = (r, []))) := by
  constructor
  · intro hall hctn
    have hctn2 : name ∉ r.channel_vec_ := by simpa using hctn
    simp only [FindNewChannel]
    split
    · simp [isCreateReaderEv]
    split
    · simp [isCreateReaderEv]
    split
    · simp [isCreateReaderEv]
    split
    · simp [isCreateReaderEv]
    · rename_i hpol
      exact absurd (by simp [ha, hall, hctn2]) hpol
  · intro hv hall
    simp only [validAttr, ha, hm, hd, hasNonEmpty] at hv
    simp only [Bool.and_eq_true, Bool.not_eq_true'] at hv
    obtain ⟨⟨hv1, hv2⟩, hv3⟩ := hv
    constructor
    · intro hdupF
      have hdupF2 : name ∉ r.channel_reader_map_ := by simpa using hdupF
      cases hw : e.writeChannelOk with
      | true =>
          simp [FindNewChannel, hasNonEmpty, ha, hm, hd, hv1, hv2, hv3,
            hall, hdupF2, hw]
      | false =>
          simp [FindNewChannel, hasNonEmpty, ha, hm, hd, hv1, hv2, hv3,
            hall, hdupF2, hw]
    · intro hdupT
      have hdupT2 : name ∈ r.channel_reader_map_ := by simpa using hdupT
      simp [FindNewChannel, hasNonEmpty, ha, hm, hd, hv1, hv2, hv3,
        hall, hdupT2]

/-- Witness for C4: the descriptor named c is rejected by the allow list
a, b; the descriptor named /chatter passes under capture-all and reaches
the schema registration. -/
theorem policyCorrectness_witness :
    (allowRec.all_channels_ = false
      ∧ allowRec.channel_vec_.contains "c" = false
      ∧ (FindNewChannel allowRec okEnv cAttr).1 = allowRec
      ∧ (FindNewChannel allowRec okEnv cAttr).2.any isCreateReaderEv = false)
    ∧ (validAttr chatterAttr = true
      ∧ idleRec.all_channels_ = true
      ∧ (FindNewChannel idleRec okEnv chatterAttr).2.head?
          = some (Event.writeChannel "/chatter" "RawMessage" "schema-bytes"
              okEnv.writeChannelOk)) :=
  ⟨⟨rfl, rfl,
    (policyCorrectness allowRec okEnv cAttr "c" "RawMessage" "schema-bytes"
      rfl rfl rfl).1 rfl rfl⟩,
   ⟨rfl, rfl,
    ((policyCorrectness idleRec okEnv chatterAttr "/chatter" "RawMessage"
      "schema-bytes" rfl rfl rfl).2 rfl rfl).1 rfl⟩⟩

/-- FindNewChannel never installs the topology change listener. -/
theorem findNewChannel_no_listener (r : Recorder) (e : ExtEnv)
    (a : RoleAttributes) :
    (FindNewChannel r e a).2.any isAddChangeListenerEv = false := by
  simp only [FindNewChannel, InitReaderImpl]
  repeat' split
  all_goals simp [isAddChangeListenerEv]

/-- The snapshot enumeration never installs the topology change
listener. -/
theorem processSnapshot_no_listener
    (snapshot : List (RoleAttributes × ExtEnv)) (r : Recorder) :
    (processSnapshot r snapshot).2.any isAddChangeListenerEv = false := by
  induction snapshot generalizing r with
  | nil => simp [processSnapshot]
  | cons p rest ih =>
      cases p with
      | mk a e =>
          simp [processSnapshot, List.any_append,
            findNewChannel_no_listener r e a, ih]

/-- C7: the trace of InitReadersImpl is the whole snapshot enumeration
followed by the single listener installation; no listener installation
happens during the enumeration; and a disconnected change connection
makes Start return failure. -/
theorem listenerAfterSnapshot (r : Recorder) (env : StartEnv) :
    (InitReadersImpl r env.snapshot env.connected).2.2
      = (processSnapshot r env.snapshot).2
          ++ Event.addChangeListener env.connected
            :: (if env.connected then []
                else [Event.logError "change connection is not connected"])
    ∧ (processSnapshot r env.snapshot).2.any isAddChangeListenerEv = false
    ∧ (env.connected = false → (Start r env).1 = false) := by
  refine ⟨?_, processSnapshot_no_listener env.snapshot r, ?_⟩
  · unfold InitReadersImpl
    cases hc : env.connected <;> simp [hc]
  · intro hc
    unfold Start
    cases ho : env.openOk with
    | false => simp [ho]
    | true =>
    cases hn : env.nodeOk with
    | false => simp [ho, hn]
    | true => simp [ho, hn, InitReadersImpl, hc]

/-- Witness for C7 at a concrete Start whose connection is refused. -/
theorem listenerAfterSnapshot_witness :
    (InitReadersImpl idleRec disconnectedEnv.snapshot
        disconnectedEnv.connected).2.2
      = (processSnapshot idleRec disconnectedEnv.snapshot).2
          ++ Event.addChangeListener disconnectedEnv.connected
            :: (if disconnectedEnv.connected then []
                else [Event.logError "change connection is not connected"])
    ∧ (processSnapshot idleRec disconnectedEnv.snapshot).2.any
        isAddChangeListenerEv = false
    ∧ (Start idleRec disconnectedEnv).1 = false :=
  ⟨(listenerAfterSnapshot idleRec disconnectedEnv).1,
   (listenerAfterSnapshot idleRec disconnectedEnv).2.1,
   (listenerAfterSnapshot idleRec disconnectedEnv).2.2 rfl⟩

/-- C8: when a descriptor passes validity, policy and deduplication but
the schema registration fails, the failure is only logged: the reader
creation attempt immediately follows in the same trace, and the snapshot
enumeration continues with the remaining channels. -/
theorem schemaFailureContinues (r : Recorder) (e : ExtEnv)
    (a : RoleAttributes) (name mtype desc : String)
    (rest : List (RoleAttributes × ExtEnv))
    (ha : a.channel_name = some name) (hm : a.message_type = some mtype)
    (hd : a.proto_desc = some desc) (hv : validAttr a = true)
    (hp : r.all_channels_ = true ∨ r.channel_vec_.contains name = true)
    (hdup : r.channel_reader_map_.contains name = false)
    (hw : e.writeChannelOk = false) :
    (FindNewChannel r e a).2
      = Event.writeChannel name mtype desc false
          :: Event.logError "write channel fail"
          :: (InitReaderImpl r e name mtype).2.2
    ∧ (e.sharedFromThisOk = true →
        (FindNewChannel r e a).2.any isCreateReaderEv = true)
    ∧ (processSnapshot r ((a, e) :: rest)).2
        = (FindNewChannel r e a).2
            ++ (processSnapshot (FindNewChannel r e a).1 rest).2 := by
  simp only [validAttr, ha, hm, hd, hasNonEmpty] at hv
  simp only [Bool.and_eq_true, Bool.not_eq_true'] at hv
  obtain ⟨⟨hv1, hv2⟩, hv3⟩ := hv
  have hdup2 : name ∉ r.channel_reader_map_ := by simpa using hdup
  refine ⟨?_, ?_, rfl⟩
  · rcases hp with hp | hp
    · simp [FindNewChannel, hasNonEmpty, ha, hm, hd, hv1, hv2, hv3,
        hp, hdup2, hw]
    · have hp2 : name ∈ r.channel_vec_ := by simpa using hp
      simp [FindNewChannel, hasNonEmpty, ha, hm, hd, hv1, hv2, hv3,
        hp2, hdup2, hw]
  · intro hs
    rcases hp with hp | hp
    · cases hcr : e.createReaderOk <;>
        simp [FindNewChannel, InitReaderImpl, hasNonEmpty, ha, hm, hd,
          hv1, hv2, hv3, hp, hdup2, hw, hs, hcr, isCreateReaderEv]
    · have hp2 : name ∈ r.channel_vec_ := by simpa using hp
      cases hcr : e.createReaderOk <;>
        simp [FindNewChannel, InitReaderImpl, hasNonEmpty, ha, hm, hd,
          hv1, hv2, hv3, hp2, hdup2, hw, hs, hcr, isCreateReaderEv]

/-- Witness for C8 at a concrete descriptor whose schema registration
fails. -/
theorem schemaFailureContinues_witness :
    (validAttr chatterAttr = true
      ∧ idleRec.all_channels_ = true
      ∧ idleRec.channel_reader_map_.contains "/chatter" = false
      ∧ wcFailEnv.writeChannelOk = false)
    ∧ ((FindNewChannel idleRec wcFailEnv chatterAttr).2
        = Event.writeChannel "/chatter" "RawMessage" "schema-bytes" false
            :: Event.logError "write channel fail"
            :: (InitReaderImpl idleRec wcFailEnv "/chatter" "RawMessage").2.2
      ∧ (FindNewChannel idleRec wcFailEnv chatterAttr).2.any
          isCreateReaderEv = true
      ∧ (processSnapshot idleRec [(chatterAttr, wcFailEnv)]).2
          = (FindNewChannel idleRec wcFailEnv chatterAttr).2
              ++ (processSnapshot
                    (FindNewChannel idleRec wcFailEnv chatterAttr).1 []).2) :=
  ⟨⟨rfl, rfl, rfl, rfl⟩,
   (schemaFailureContinues idleRec wcFailEnv chatterAttr "/chatter"
      "RawMessage" "schema-bytes" [] rfl rfl rfl rfl (Or.inl rfl) rfl rfl).1,
   (schemaFailureContinues idleRec wcFailEnv chatterAttr "/chatter"
      "RawMessage" "schema-bytes" [] rfl rfl rfl rfl (Or.inl rfl) rfl rfl).2.1
     rfl,
   (schemaFailureContinues idleRec wcFailEnv chatterAttr "/chatter"
      "RawMessage" "schema-bytes" [] rfl rfl rfl rfl (Or.inl rfl) rfl rfl).2.2⟩

/-- Witness for C10 at a started session and at a never-started one. -/
theorem destructorStops_witness :
    (destruct startedRec).2
        = [Event.removeChangeListener, Event.closeWriter, Event.resetNode]
    ∧ (destruct idleRec).2 = [] :=
  ⟨(destructorStops startedRec).2.1 rfl rfl,
   (destructorStops idleRec).2.2 (Or.inl rfl)⟩

end CyberRecorder
